import Mathlib

/-!
Verification of the document identity + artefact pipeline + content-addressable
store of the `langchain-document-processor` repository.

The definitions below are a shallow embedding of:
  * `app/storage/file_hasher.py`   (`FileHasher`)
  * `app/storage/mongodb.py`       (`MongoDBStoreManager`)
  * `app/document_processor.py`    (`DocumentProcessor`)
  * `app/builders/document_processor.py` (`DocumentProcessorBuilder`)

Byte strings are `List Nat` (each element a byte value).  The MongoDB
collection is a list of documents; `find_one` returns the first match,
`update_one` updates the first match and reports the matched count, and
`insert_one` appends.  Python functions that can raise are embedded with
`Except`; the wall clock (`datetime.now().isoformat()`) is passed in
explicitly as a `now : String` argument.
-/

/-! ### SHA-256 (FIPS 180-4) — the digest `hashlib.sha256` computes. -/

abbrev Bytes := List Nat

/-- Truncation to a 32-bit machine word. -/
def w32 (n : Nat) : Nat := n % 4294967296

/-- 32-bit right rotation. -/
def rotr (n x : Nat) : Nat := w32 ((x >>> n) ||| (x <<< (32 - n)))

def bigS0 (x : Nat) : Nat := (rotr 2 x) ^^^ (rotr 13 x) ^^^ (rotr 22 x)

def bigS1 (x : Nat) : Nat := (rotr 6 x) ^^^ (rotr 11 x) ^^^ (rotr 25 x)

def smallS0 (x : Nat) : Nat := (rotr 7 x) ^^^ (rotr 18 x) ^^^ (x >>> 3)

def smallS1 (x : Nat) : Nat := (rotr 17 x) ^^^ (rotr 19 x) ^^^ (x >>> 10)

/-- The 64 SHA-256 round constants. -/
def sha256K : List Nat :=
  [1116352408, 1899447441, 3049323471, 3921009573, 961987163, 1508970993,
   2453635748, 2870763221, 3624381080, 310598401, 607225278, 1426881987,
   1925078388, 2162078206, 2614888103, 3248222580, 3835390401, 4022224774,
   264347078, 604807628, 770255983, 1249150122, 1555081692, 1996064986,
   2554220882, 2821834349, 2952996808, 3210313671, 3336571891, 3584528711,
   113926993, 338241895, 666307205, 773529912, 1294757372, 1396182291,
   1695183700, 1986661051, 2177026350, 2456956037, 2730485921, 2820302411,
   3259730800, 3345764771, 3516065817, 3600352804, 4094571909, 275423344,
   430227734, 506948616, 659060556, 883997877, 958139571, 1322822218,
   1537002063, 1747873779, 1955562222, 2024104815, 2227730452, 2361852424,
   2428436474, 2756734187, 3204031479, 3329325298]

/-- The SHA-256 initial hash state. -/
def sha256H0 : List Nat :=
  [1779033703, 3144134277, 1013904242, 2773480762,
   1359893119, 2600822924, 528734635, 1541459225]

/-- Big-endian byte encoding of `n` in `k` bytes. -/
def toBytesBE (k n : Nat) : Bytes :=
  (List.range k).map (fun i => (n >>> (8 * (k - 1 - i))) % 256)

/-- SHA-256 message padding: `0x80`, zeros to 56 mod 64, then the bit length. -/
def padMessage (msg : Bytes) : Bytes :=
  let len := msg.length
  let padZeros := (119 - len % 64) % 64
  msg ++ [0x80] ++ List.replicate padZeros 0 ++ toBytesBE 8 (len * 8)

/-- Splits a byte string into 64-byte blocks (fuel-based structural recursion). -/
def chunk64Go : Nat → Bytes → List Bytes
  | 0, _ => []
  | _, [] => []
  | Nat.succ fuel, l => l.take 64 :: chunk64Go fuel (l.drop 64)

def chunk64 (l : Bytes) : List Bytes := chunk64Go l.length l

/-- Packs 4 consecutive bytes into big-endian 32-bit words. -/
def toWordsGo : Nat → Bytes → List Nat
  | 0, _ => []
  | _, [] => []
  | Nat.succ fuel, l =>
      (l.getD 0 0 * 16777216 + l.getD 1 0 * 65536 + l.getD 2 0 * 256 + l.getD 3 0)
        :: toWordsGo fuel (l.drop 4)

def toWords (l : Bytes) : List Nat := toWordsGo l.length l

/-- One step of the message-schedule extension; `rws` is the schedule so far,
most recent word first. -/
def schedStep (rws : List Nat) : List Nat :=
  w32 (smallS1 (rws.getD 1 0) + rws.getD 6 0 + smallS0 (rws.getD 14 0) + rws.getD 15 0) :: rws

/-- The 64-word message schedule of one block (given as 16 words). -/
def schedule (ws16 : List Nat) : List Nat :=
  ((List.range 48).foldl (fun acc _ => schedStep acc) ws16.reverse).reverse

/-- One SHA-256 compression round on the 8-word working state. -/
def sha256Round (st : List Nat) (w k : Nat) : List Nat :=
  match st with
  | [a, b, c, d, e, f, g, h] =>
      let ch := (e &&& f) ^^^ ((4294967295 ^^^ e) &&& g)
      let maj := (a &&& b) ^^^ (a &&& c) ^^^ (b &&& c)
      let t1 := w32 (h + bigS1 e + ch + k + w)
      let t2 := w32 (bigS0 a + maj)
      [w32 (t1 + t2), a, b, c, w32 (d + t1), e, f, g]
  | other => other

/-- Processes one 64-byte block (as 16 words) into the running hash state. -/
def processBlock (h : List Nat) (block : List Nat) : List Nat :=
  let st := ((schedule block).zip sha256K).foldl
    (fun st p => sha256Round st p.1 p.2) h
  (h.zip st).map (fun p => w32 (p.1 + p.2))

/-- SHA-256 digest of a byte string, as 8 32-bit words. -/
def sha256Words (msg : Bytes) : List Nat :=
  ((chunk64 (padMessage msg)).map toWords).foldl processBlock sha256H0

def hexDigit (n : Nat) : Char :=
  if n < 10 then Char.ofNat (48 + n) else Char.ofNat (87 + n)

/-- Lowercase 8-hex-digit rendering of a 32-bit word. -/
def wordToHex (w : Nat) : List Char :=
  (List.range 8).map (fun i => hexDigit ((w >>> (4 * (7 - i))) &&& 15))

/-- `hashlib.sha256(msg).hexdigest()`. -/
def sha256hex (msg : Bytes) : String :=
  ⟨(sha256Words msg).flatMap wordToHex⟩

example : sha256hex [] =
    "e3b0c44298fc1c149afbf4c8996fb92427ae41e4649b934ca495991b7852b855" := by decide

example : sha256hex [0x61, 0x62, 0x63] =
    "ba7816bf8f01cfea414140de5dae2223b00361a396177a9cb410ff61f20015ad" := by decide

/-! ### `FileHasher` (`app/storage/file_hasher.py`) -/

/-- Python slice `b[-n:]` for `n ≥ 0`: the whole list when `n = 0`
(since `-0 == 0`), otherwise the last `n` elements (clamped). -/
def pySliceLast (n : Nat) (b : Bytes) : Bytes :=
  if n == 0 then b else b.drop (b.length - n)

structure FileHasher where
  first_n_bytes : Nat := 512
  last_n_bytes : Nat := 512

/-- `FileHasher.hash`: SHA-256 of the first `first_n_bytes` concatenated with
the last `last_n_bytes` (the whole payload when it is shorter than
`last_n_bytes`), hex encoded. -/
def FileHasher.hash (h : FileHasher) (file_bytes : Bytes) : String :=
  let first_part := file_bytes.take h.first_n_bytes
  let last_part :=
    if file_bytes.length ≥ h.last_n_bytes then pySliceLast h.last_n_bytes file_bytes
    else file_bytes
  let combined_bytes := first_part ++ last_part
  sha256hex combined_bytes

/-- The default-configured hasher used by `DocumentProcessor` (`FileHasher()`). -/
def defaultHasher : FileHasher := {}

/-- The spec-side wording of the identity function ("hash the concatenation of
the first F bytes and the last L bytes of the payload"): modelled from the
spec for comparison with the code's `FileHasher.hash`. -/
def specIdentity (F L : Nat) (b : Bytes) : String :=
  sha256hex (b.take F ++ b.drop (b.length - L))

/-! ### Data model and MongoDB store (`app/storage/mongodb.py`) -/

/-- `MAX_DOCUMENT_SIZE_IN_BYTES` from `app/storage/mongodb.py`. -/
def MAX_DOCUMENT_SIZE_IN_BYTES : Nat := 16793598

/-- Opaque stand-in for the metadata mapping attached to an artefact. -/
abbrev Metadata := List (String × String)

/-- `FeedbackForm` (`app/models/feedback_form.py`): pydantic model whose
optional fields default to `None`; `form.dict()` always carries all keys. -/
structure FeedbackForm where
  user : String
  feedback : Option String := none
  written_feedback : Option String := none
  created_at : Option String := none
deriving DecidableEq

/-- One artefact value stored under a kind key.  The pipeline always stores
`_id`, `metadata` and `content`; a `$push` of feedback to a missing kind
creates a sub-document holding only the feedback list, hence the `Option`s. -/
structure Artefact where
  genId : Option String := none
  metadata : Option Metadata := none
  content : Option String := none
  feedback : List FeedbackForm := []
deriving DecidableEq

/-- One MongoDB document of the `documents` collection.
`raw` models the `original_document_as_bytes` key: `none` means the key is
absent, `some none` that it is present with BSON null (payload over the size
ceiling), `some (some b)` that it is present with the embedded bytes. -/
structure StoredDoc where
  id : String
  raw : Option (Option Bytes)
  artefacts : List (String × Artefact)
deriving DecidableEq

/-- The collection: a list of documents, `insert_one` appends,
`find_one`/`update_one` act on the first match. -/
abbrev Collection := List StoredDoc

def find_one (coll : Collection) (_id : String) : Option StoredDoc :=
  coll.find? (fun r => r.id == _id)

/-- `collection.update_one({"_id": _id}, ...)`: applies `f` to the first
matching document and returns the new collection with the matched count. -/
def update_one (coll : Collection) (_id : String) (f : StoredDoc → StoredDoc) :
    Collection × Nat :=
  match coll with
  | [] => ([], 0)
  | r :: rest =>
      if r.id == _id then (f r :: rest, 1)
      else
        let p := update_one rest _id f
        (r :: p.1, p.2)

/-- Assoc-list write of a top-level dynamic field (`$set {kind: data}`):
replaces in place or appends a new key at the end, as BSON `$set` does. -/
def assocSet (l : List (String × Artefact)) (k : String) (a : Artefact) :
    List (String × Artefact) :=
  match l with
  | [] => [(k, a)]
  | (k', a') :: rest =>
      if k' == k then (k, a) :: rest else (k', a') :: assocSet rest k a

def assocLookup (l : List (String × Artefact)) (k : String) : Option Artefact :=
  match l with
  | [] => none
  | (k', a) :: rest => if k' == k then some a else assocLookup rest k

/-- `$push {kind.feedback: fb}`: appends to the feedback array of the artefact
at `kind`; when `kind` is absent MongoDB creates `{kind: {feedback: [fb]}}`. -/
def assocPush (l : List (String × Artefact)) (k : String) (fb : FeedbackForm) :
    List (String × Artefact) :=
  match l with
  | [] => [(k, { feedback := [fb] })]
  | (k', a) :: rest =>
      if k' == k then (k', { a with feedback := a.feedback ++ [fb] }) :: rest
      else (k', a) :: assocPush rest k fb

def StoredDoc.set (r : StoredDoc) (k : String) (a : Artefact) : StoredDoc :=
  { r with artefacts := assocSet r.artefacts k a }

def StoredDoc.push (r : StoredDoc) (k : String) (fb : FeedbackForm) : StoredDoc :=
  { r with artefacts := assocPush r.artefacts k fb }

/-- Python `artefact not in existing_document` negated: key membership in the
document dict, whose fixed keys are `_id` and (when present)
`original_document_as_bytes`, plus the dynamic artefact keys. -/
def recordHasKey (r : StoredDoc) (k : String) : Bool :=
  k == "_id" || (k == "original_document_as_bytes" && r.raw.isSome)
    || (assocLookup r.artefacts k).isSome

/-- `MongoDBStoreManager.document_can_be_stored`. -/
def document_can_be_stored (document : Bytes) : Bool :=
  document.length ≤ MAX_DOCUMENT_SIZE_IN_BYTES

/-- `MongoDBStoreManager.store_service_output`: the central upsert.  Mirrors
the source line by line: compute `document_to_store`, `find_one`; if absent,
insert the base document `{_id, original_document_as_bytes}` and use it as the
existing document; then `$set {artefact: data}` when the kind is not a key of
the existing document or `overwrite_existing` holds.  Returns the new
collection and the returned `_id`. -/
def store_service_output (coll : Collection) (_id artefact : String)
    (data : Artefact) (document : Bytes) (overwrite_existing : Bool := false) :
    Collection × String :=
  let document_to_store : Option Bytes :=
    if document_can_be_stored document then some document else none
  let p : Collection × StoredDoc :=
    match find_one coll _id with
    | some d => (coll, d)
    | none =>
        let base : StoredDoc := ⟨_id, some document_to_store, []⟩
        (coll ++ [base], base)
  let coll2 :=
    if (! recordHasKey p.2 artefact || overwrite_existing) then
      (update_one p.1 _id (fun r => r.set artefact data)).1
    else p.1
  (coll2, _id)

/-- `MongoDBStoreManager._set_creation_date`: unconditionally overwrites
`created_at` with the server-side `datetime.now().isoformat()` value. -/
def set_creation_date (now : String) (feedback : FeedbackForm) : FeedbackForm :=
  { feedback with created_at := some now }

/-- `MongoDBStoreManager.store_service_output_feedback`: `$push` the feedback
onto `service_type.feedback`, then raise `ValueError` when the update matched
no document.  Returns the collection after the update (unchanged on no match)
together with the result. -/
def store_service_output_feedback (coll : Collection) (_id service_type : String)
    (form : FeedbackForm) (now : String) : Collection × Except String String :=
  let feedback_as_dict := set_creation_date now form
  let p := update_one coll _id (fun r => r.push service_type feedback_as_dict)
  if p.2 == 0 then
    (p.1, .error ("Failed to insert feedback with _id=" ++ _id
      ++ " on service_type=" ++ service_type))
  else (p.1, .ok _id)

/-- The view of a document returned by retrieval; `raw = none` means the
byte field is absent from the returned dict. -/
structure DocView where
  id : String
  raw : Option (Option Bytes)
  artefacts : List (String × Artefact)
deriving DecidableEq

def StoredDoc.toView (r : StoredDoc) : DocView := ⟨r.id, r.raw, r.artefacts⟩

/-- `MongoDBStoreManager.get_document_by_id`.  `find_one` yields `None` when
no document matches; the source then evaluates
`'original_document_as_bytes' in document`, which on `None` raises
`TypeError` — embedded as the error case.  With `exclude_byte_fields=False`
and no match the source returns `None` (`.ok none`). -/
def get_document_by_id (coll : Collection) (_id : String)
    (exclude_byte_fields : Bool := true) : Except String (Option DocView) :=
  match find_one coll _id with
  | none =>
      if exclude_byte_fields then
        .error "TypeError: argument of type NoneType is not iterable"
      else .ok none
  | some document =>
      if exclude_byte_fields && document.raw.isSome then
        .ok (some ⟨document.id, none, document.artefacts⟩)
      else .ok (some document.toView)

/-! ### `DocumentProcessor` (`app/document_processor.py`) and its builder -/

/-- `AIMessage`: the generation result consumed by the pipeline (`generated.id`
and `generated.content`). -/
structure GeneratedMessage where
  id : String
  content : String

/-- A generation service as the pipeline consumes it (`BaseService`):
its `service_type` key, its `run` over the loaded content and its
`get_metadata`.  Services are external collaborators; each is a pure
function of the shared content here. -/
structure ServiceSpec where
  service_type : String
  run : List String → GeneratedMessage
  get_metadata : String → GeneratedMessage → Metadata

/-- The Loader collaborator: its `file_path` and the text units `load()`
extracts from that file. -/
structure LoaderSpec where
  file_path : String
  docs : List String

/-- `DocumentProcessor.__init__`: `services or []` turns `None` (and `[]`)
into the empty list; no validation is performed.  The store manager and
logger wiring are out of scope. -/
structure DocumentProcessor where
  loader : LoaderSpec
  services : List ServiceSpec
  hasher : FileHasher := {}

def DocumentProcessor.init (loader : LoaderSpec)
    (services : Option (List ServiceSpec) := none) : DocumentProcessor :=
  ⟨loader, services.getD [], {}⟩

/-- The mutable world a pipeline run touches: the backing collection, the
file on disk, and instrumentation counting how many times the payload is
read from disk (`file_as_bytes`) and how many times the Loader extracts
text (`loader.load()`). -/
structure World where
  coll : Collection
  fileBytes : Bytes
  bytesReads : Nat := 0
  loaderLoads : Nat := 0

/-- `DocumentProcessor.file_as_bytes`: opens and reads the file — one disk
read per evaluation of the property. -/
def fileAsBytes (w : World) : Bytes × World :=
  (w.fileBytes, { w with bytesReads := w.bytesReads + 1 })

/-- `DocumentProcessor._execute_service_on_content`: run the service on the
shared content, build the artefact payload with an empty feedback list, then
`store_service_output(_id=self.file_hash, ..., document=self.file_as_bytes,
overwrite_existing=True)`.  `self.file_hash` re-reads the file and hashes it;
`self.file_as_bytes` re-reads it again. -/
def execServiceOnContent (p : DocumentProcessor) (s : ServiceSpec)
    (content : List String) (w : World) : World :=
  let generated := s.run content
  let artefact_data : Artefact :=
    { genId := some generated.id
      metadata := some (s.get_metadata p.loader.file_path generated)
      content := some generated.content
      feedback := [] }
  let p1 := fileAsBytes w
  let _id := p.hasher.hash p1.1
  let p2 := fileAsBytes p1.2
  let stored := store_service_output p2.2.coll _id s.service_type artefact_data p2.1 true
  { p2.2 with coll := stored.1 }

/-- `DocumentProcessor.execute_services`: load the content once, run every
service in order on it, then return `get_document_by_id(self.file_hash)`
(one more file read for the hash). -/
def executeServices (p : DocumentProcessor) (w : World) :
    World × Except String (Option DocView) :=
  let content := p.loader.docs
  let w1 := { w with loaderLoads := w.loaderLoads + 1 }
  let w2 := p.services.foldl (fun w s => execServiceOnContent p s content w) w1
  let p3 := fileAsBytes w2
  (p3.2, get_document_by_id p3.2.coll (p.hasher.hash p3.1) true)

/-- The artefact payload `_execute_service_on_content` builds for service `s`
against processor `p`'s loaded content. -/
def freshArtefact (p : DocumentProcessor) (s : ServiceSpec) : Artefact :=
  let generated := s.run p.loader.docs
  { genId := some generated.id
    metadata := some (s.get_metadata p.loader.file_path generated)
    content := some generated.content
    feedback := [] }

/-- `DocumentProcessorBuilder` state relevant to `build()`:
`loader` defaults to `None`, `services` to `[]`. -/
structure DocumentProcessorBuilder where
  loader : Option LoaderSpec := none
  services : List ServiceSpec := []

/-- `DocumentProcessorBuilder.build`: raises on a missing loader, then on an
empty (falsy) service list, otherwise constructs the `DocumentProcessor`. -/
def DocumentProcessorBuilder.build (b : DocumentProcessorBuilder) :
    Except String DocumentProcessor :=
  match b.loader with
  | none => .error "Cannot instantiate DocumentProcessor object without a Loader."
  | some l =>
      if b.services.isEmpty then
        .error "Cannot instantiate DocumentProcessor object without services."
      else .ok (DocumentProcessor.init l (some b.services))

/-- Artefact kinds that collide with the fixed keys of the stored document;
storing under these would hit MongoDB-level behaviour the embedding does not
model, so theorems about dynamic kinds exclude them. -/
def reservedKey (k : String) : Prop :=
  k = "_id" ∨ k = "original_document_as_bytes"

instance (k : String) : Decidable (reservedKey k) := by
  unfold reservedKey; infer_instance

/-- Number of records of the collection carrying a given id. -/
def countMatching (coll : Collection) (_id : String) : Nat :=
  (coll.filter (fun r => r.id == _id)).length

/-- The feedback list stored at kind `k` of the record (empty when the kind
is absent). -/
def feedbackAt (r : StoredDoc) (k : String) : List FeedbackForm :=
  match assocLookup r.artefacts k with
  | some a => a.feedback
  | none => []

/-- Artefact stored under `k` for the (first) record at `_id`. -/
def artefactAt (coll : Collection) (_id k : String) : Option Artefact :=
  (find_one coll _id).bind (fun r => assocLookup r.artefacts k)

/-! ### Helper lemmas about the collection operations -/

theorem StoredDoc.set_id (r : StoredDoc) (k : String) (a : Artefact) :
    (r.set k a).id = r.id := rfl

theorem StoredDoc.set_raw (r : StoredDoc) (k : String) (a : Artefact) :
    (r.set k a).raw = r.raw := rfl

theorem StoredDoc.push_id (r : StoredDoc) (k : String) (fb : FeedbackForm) :
    (r.push k fb).id = r.id := rfl

theorem find_one_cons (r : StoredDoc) (rest : Collection) (i : String) :
    find_one (r :: rest) i = if r.id = i then some r else find_one rest i := by
  by_cases h : r.id = i
  · simp [find_one, h]
  · simp [find_one, h]

theorem update_one_snd (coll : Collection) (i : String) (f : StoredDoc → StoredDoc) :
    (update_one coll i f).2 = if (find_one coll i).isSome then 1 else 0 := by
  induction coll with
  | nil => simp [update_one, find_one]
  | cons r rest ih =>
      by_cases h : r.id = i
      · simp [update_one, find_one_cons, h]
      · simp [update_one, find_one_cons, h, ih]

theorem update_one_fst_of_none {coll : Collection} {i : String}
    (f : StoredDoc → StoredDoc) (h : find_one coll i = none) :
    (update_one coll i f).1 = coll := by
  induction coll with
  | nil => rfl
  | cons r rest ih =>
      rw [find_one_cons] at h
      by_cases hr : r.id = i
      · simp [hr] at h
      · simp [hr] at h
        simp [update_one, hr, ih h]

theorem find_one_update_one_self {coll : Collection} {i : String}
    {f : StoredDoc → StoredDoc} {r : StoredDoc}
    (hf : ∀ x, (f x).id = x.id) (h : find_one coll i = some r) :
    find_one (update_one coll i f).1 i = some (f r) := by
  induction coll with
  | nil => simp [find_one] at h
  | cons a rest ih =>
      rw [find_one_cons] at h
      by_cases ha : a.id = i
      · simp [ha] at h
        subst h
        simp [update_one, ha, find_one_cons, hf]
      · simp [ha] at h
        simp [update_one, ha, find_one_cons, ih h]

theorem countMatching_cons (a : StoredDoc) (l : Collection) (j : String) :
    countMatching (a :: l) j = (if a.id = j then 1 else 0) + countMatching l j := by
  by_cases hj : a.id = j <;>
    simp [countMatching, List.filter_cons, hj, Nat.add_comm]

theorem countMatching_update_one (coll : Collection) (i j : String)
    (f : StoredDoc → StoredDoc) (hf : ∀ x, (f x).id = x.id) :
    countMatching (update_one coll i f).1 j = countMatching coll j := by
  induction coll with
  | nil => rfl
  | cons a rest ih =>
      by_cases ha : a.id = i
      · simp [update_one, ha, countMatching_cons, hf]
      · simp [update_one, ha, countMatching_cons, ih]

theorem find_one_append_of_none {coll : Collection} {i : String}
    (h : find_one coll i = none) (b : StoredDoc) :
    find_one (coll ++ [b]) i = if b.id = i then some b else none := by
  induction coll with
  | nil => simp [find_one_cons, find_one]
  | cons a rest ih =>
      rw [find_one_cons] at h
      by_cases ha : a.id = i
      · simp [ha] at h
      · simp [ha] at h
        simpa [find_one_cons, ha] using ih h

theorem update_one_append_last {coll : Collection} {i : String} {b : StoredDoc}
    (f : StoredDoc → StoredDoc) (h : find_one coll i = none) (hb : b.id = i) :
    (update_one (coll ++ [b]) i f).1 = coll ++ [f b] := by
  induction coll with
  | nil => simp [update_one, hb]
  | cons a rest ih =>
      rw [find_one_cons] at h
      by_cases ha : a.id = i
      · simp [ha] at h
      · simp [ha] at h
        simp [update_one, ha, ih h]

theorem assocLookup_assocSet_self (l : List (String × Artefact)) (k : String)
    (a : Artefact) : assocLookup (assocSet l k a) k = some a := by
  induction l with
  | nil => simp [assocSet, assocLookup]
  | cons p rest ih =>
      by_cases hp : p.1 = k
      · simp [assocSet, assocLookup, hp]
      · simp [assocSet, assocLookup, hp, ih]

theorem assocLookup_assocSet_ne (l : List (String × Artefact)) {k k' : String}
    (a : Artefact) (h : k' ≠ k) :
    assocLookup (assocSet l k a) k' = assocLookup l k' := by
  induction l with
  | nil => simp [assocSet, assocLookup, Ne.symm h]
  | cons p rest ih =>
      by_cases hp : p.1 = k
      · have hpk : p.1 ≠ k' := by rw [hp]; exact Ne.symm h
        simp [assocSet, assocLookup, hp, Ne.symm h, hpk]
      · simp [assocSet, assocLookup, hp, ih]

theorem assocLookup_assocPush_self (l : List (String × Artefact)) (k : String)
    (fb : FeedbackForm) :
    assocLookup (assocPush l k fb) k =
      some (match assocLookup l k with
        | some a => { a with feedback := a.feedback ++ [fb] }
        | none => { feedback := [fb] }) := by
  induction l with
  | nil => simp [assocPush, assocLookup]
  | cons p rest ih =>
      by_cases hp : p.1 = k
      · simp [assocPush, assocLookup, hp]
      · simp [assocPush, assocLookup, hp, ih]

theorem assocLookup_assocPush_ne (l : List (String × Artefact)) {k k' : String}
    (fb : FeedbackForm) (h : k' ≠ k) :
    assocLookup (assocPush l k fb) k' = assocLookup l k' := by
  induction l with
  | nil => simp [assocPush, assocLookup, Ne.symm h]
  | cons p rest ih =>
      by_cases hp : p.1 = k
      · have hpk : p.1 ≠ k' := by rw [hp]; exact Ne.symm h
        simp [assocPush, assocLookup, hp, Ne.symm h, hpk]
      · simp [assocPush, assocLookup, hp, ih]

theorem feedbackAt_push_self (r : StoredDoc) (k : String) (fb : FeedbackForm) :
    feedbackAt (r.push k fb) k = feedbackAt r k ++ [fb] := by
  unfold feedbackAt StoredDoc.push
  rw [assocLookup_assocPush_self]
  cases assocLookup r.artefacts k <;> simp

/-! ### Behaviour of the store operations -/

theorem store_service_output_found {coll : Collection} {i : String}
    {r : StoredDoc} (k : String) (data : Artefact) (doc : Bytes) (ow : Bool)
    (h : find_one coll i = some r) :
    store_service_output coll i k data doc ow =
      (if (! recordHasKey r k || ow) then
        (update_one coll i (fun x => x.set k data)).1
      else coll, i) := by
  simp [store_service_output, h]

theorem store_service_output_found_overwrite {coll : Collection} {i : String}
    {r : StoredDoc} (k : String) (data : Artefact) (doc : Bytes)
    (h : find_one coll i = some r) :
    store_service_output coll i k data doc true =
      ((update_one coll i (fun x => x.set k data)).1, i) := by
  simp [store_service_output_found k data doc true h]

theorem store_service_output_none {coll : Collection} {i : String}
    (k : String) (data : Artefact) (doc : Bytes) (ow : Bool)
    (hk : ¬ reservedKey k) (h : find_one coll i = none) :
    store_service_output coll i k data doc ow =
      (coll ++ [⟨i, some (if document_can_be_stored doc then some doc else none),
        [(k, data)]⟩], i) := by
  have h1 : ¬ (k = "_id") := fun hh => hk (Or.inl hh)
  have h2 : ¬ (k = "original_document_as_bytes") := fun hh => hk (Or.inr hh)
  have hbase : recordHasKey ⟨i, some (if document_can_be_stored doc
      then some doc else none), []⟩ k = false := by
    simp [recordHasKey, h1, h2, assocLookup]
  simp only [store_service_output, h]
  rw [hbase]
  simp only [Bool.not_false, Bool.true_or, if_pos]
  rw [update_one_append_last _ h rfl]
  simp [StoredDoc.set, assocSet]

theorem store_service_output_feedback_found {coll : Collection} {i : String}
    {r : StoredDoc} (k : String) (form : FeedbackForm) (now : String)
    (h : find_one coll i = some r) :
    store_service_output_feedback coll i k form now =
      ((update_one coll i (fun x => x.push k (set_creation_date now form))).1,
        .ok i) := by
  have hm := update_one_snd coll i (fun x => x.push k (set_creation_date now form))
  simp [store_service_output_feedback, hm, h]

theorem store_service_output_feedback_none {coll : Collection} {i : String}
    (k : String) (form : FeedbackForm) (now : String)
    (h : find_one coll i = none) :
    store_service_output_feedback coll i k form now =
      (coll, .error ("Failed to insert feedback with _id=" ++ i
        ++ " on service_type=" ++ k)) := by
  have hm := update_one_snd coll i (fun x => x.push k (set_creation_date now form))
  have hc := update_one_fst_of_none
    (fun x => x.push k (set_creation_date now form)) h
  simp [store_service_output_feedback, hm, hc, h]

/-! ### Behaviour of the pipeline run -/

/-- The artefact payload `_execute_service_on_content` builds for service `s`
when the loaded content is `content`. -/
def builtArtefact (p : DocumentProcessor) (s : ServiceSpec)
    (content : List String) : Artefact :=
  let generated := s.run content
  { genId := some generated.id
    metadata := some (s.get_metadata p.loader.file_path generated)
    content := some generated.content
    feedback := [] }

theorem freshArtefact_eq_built (p : DocumentProcessor) (s : ServiceSpec) :
    freshArtefact p s = builtArtefact p s p.loader.docs := rfl

/-- The service loop of `execute_services`, as a named fold. -/
def runServices (p : DocumentProcessor) (content : List String)
    (svcs : List ServiceSpec) (w : World) : World :=
  svcs.foldl (fun w s => execServiceOnContent p s content w) w

theorem executeServices_eq_run (p : DocumentProcessor) (w : World) :
    executeServices p w =
      (let w2 := runServices p p.loader.docs p.services
        { w with loaderLoads := w.loaderLoads + 1 }
       let p3 := fileAsBytes w2
       (p3.2, get_document_by_id p3.2.coll (p.hasher.hash p3.1) true)) := rfl

theorem execServiceOnContent_fileBytes (p : DocumentProcessor) (s : ServiceSpec)
    (content : List String) (w : World) :
    (execServiceOnContent p s content w).fileBytes = w.fileBytes := rfl

theorem execServiceOnContent_bytesReads (p : DocumentProcessor) (s : ServiceSpec)
    (content : List String) (w : World) :
    (execServiceOnContent p s content w).bytesReads = w.bytesReads + 2 := rfl

theorem execServiceOnContent_loaderLoads (p : DocumentProcessor) (s : ServiceSpec)
    (content : List String) (w : World) :
    (execServiceOnContent p s content w).loaderLoads = w.loaderLoads := rfl

theorem execServiceOnContent_coll (p : DocumentProcessor) (s : ServiceSpec)
    (content : List String) (w : World) :
    (execServiceOnContent p s content w).coll =
      (store_service_output w.coll (p.hasher.hash w.fileBytes) s.service_type
        (builtArtefact p s content) w.fileBytes true).1 := rfl

theorem execServiceOnContent_coll_found (p : DocumentProcessor) (s : ServiceSpec)
    (content : List String) (w : World) (r : StoredDoc)
    (h : find_one w.coll (p.hasher.hash w.fileBytes) = some r) :
    (execServiceOnContent p s content w).coll =
      (update_one w.coll (p.hasher.hash w.fileBytes)
        (fun x => x.set s.service_type (builtArtefact p s content))).1 := by
  rw [execServiceOnContent_coll,
    store_service_output_found_overwrite _ _ _ h]

theorem runServices_counters (p : DocumentProcessor) (content : List String)
    (svcs : List ServiceSpec) : ∀ w : World,
    (runServices p content svcs w).fileBytes = w.fileBytes ∧
    (runServices p content svcs w).bytesReads = w.bytesReads + 2 * svcs.length ∧
    (runServices p content svcs w).loaderLoads = w.loaderLoads := by
  induction svcs with
  | nil => intro w; exact ⟨rfl, by simp [runServices], rfl⟩
  | cons s rest ih =>
      intro w
      have hstep : runServices p content (s :: rest) w
          = runServices p content rest (execServiceOnContent p s content w) := rfl
      have h := ih (execServiceOnContent p s content w)
      refine ⟨?_, ?_, ?_⟩
      · rw [hstep, h.1, execServiceOnContent_fileBytes]
      · rw [hstep, h.2.1, execServiceOnContent_bytesReads]
        simp [List.length_cons]
        omega
      · rw [hstep, h.2.2, execServiceOnContent_loaderLoads]

/-- The heart of claim C1: folding the configured services over a world whose
collection already holds a record for the content identity updates that one
record in place — no second record, untouched kinds preserved, each run kind
replaced by the freshly built artefact. -/
theorem runServices_upsert (p : DocumentProcessor) (content : List String)
    (svcs : List ServiceSpec) : ∀ (w : World) (r : StoredDoc),
    find_one w.coll (p.hasher.hash w.fileBytes) = some r →
    (svcs.map (fun s => s.service_type)).Nodup →
    (∀ j, countMatching (runServices p content svcs w).coll j
        = countMatching w.coll j) ∧
    ∃ r', find_one (runServices p content svcs w).coll
        (p.hasher.hash w.fileBytes) = some r' ∧
      r'.raw = r.raw ∧
      (∀ k, k ∉ svcs.map (fun s => s.service_type) →
        assocLookup r'.artefacts k = assocLookup r.artefacts k) ∧
      ∀ s ∈ svcs, assocLookup r'.artefacts s.service_type =
        some (builtArtefact p s content) := by
  induction svcs with
  | nil =>
      intro w r h _
      exact ⟨fun j => rfl, r, h, rfl, fun k _ => rfl, by simp⟩
  | cons s rest ih =>
      intro w r h hnd
      have hstep : runServices p content (s :: rest) w
          = runServices p content rest (execServiceOnContent p s content w) := rfl
      have hsetid : ∀ x : StoredDoc,
          (x.set s.service_type (builtArtefact p s content)).id = x.id :=
        fun x => rfl
      have hfb : (execServiceOnContent p s content w).fileBytes = w.fileBytes :=
        execServiceOnContent_fileBytes p s content w
      have hcoll := execServiceOnContent_coll_found p s content w r h
      have h1 : find_one (execServiceOnContent p s content w).coll
          (p.hasher.hash (execServiceOnContent p s content w).fileBytes)
          = some (r.set s.service_type (builtArtefact p s content)) := by
        rw [hfb, hcoll]
        exact find_one_update_one_self hsetid h
      have hndc : s.service_type ∉ rest.map (fun s => s.service_type)
          ∧ (rest.map (fun s => s.service_type)).Nodup := by
        simpa [List.nodup_cons] using hnd
      obtain ⟨ihcount, r', ihfind, ihraw, ihother, ihsvc⟩ :=
        ih (execServiceOnContent p s content w) _ h1 hndc.2
      refine ⟨?_, r', ?_, ?_, ?_, ?_⟩
      · intro j
        rw [hstep, ihcount j, hcoll, countMatching_update_one _ _ _ _ hsetid]
      · rw [hstep, ← hfb]
        exact ihfind
      · rw [ihraw]
        rfl
      · intro k hk
        have hk1 : k ≠ s.service_type := by
          intro hh; exact hk (by simp [hh])
        have hk2 : k ∉ rest.map (fun s => s.service_type) := by
          intro hh; exact hk (by simp [hh])
        rw [ihother k hk2]
        exact assocLookup_assocSet_ne _ _ hk1
      · intro s' hs'
        rcases List.mem_cons.mp hs' with heq | hmem
        · subst heq
          rw [ihother s'.service_type hndc.1]
          exact assocLookup_assocSet_self _ _ _
        · exact ihsvc s' hmem

/-! ### Concrete fixtures used by witnesses and counterexamples -/

/-- `b"hello world"`. -/
def helloWorldBytes : Bytes := [104, 101, 108, 108, 111, 32, 119, 111, 114, 108, 100]

def artefactA : Artefact :=
  { genId := some "gen-A", metadata := some [("file", "a.txt")],
    content := some "summary text", feedback := [] }

/-! ### Claims -/

/-- C2: for every byte payload, `identity(b)` is the hex SHA-256 digest of the
concatenation of the first F and last L bytes (defaults F=L=512); for every
payload shorter than L the entire payload is used for both parts; in
particular `identity(b"hello world")` equals the hex SHA-256 of
`b"hello world" + b"hello world"`, which is the digest literal below. -/
theorem C2_content_identity :
    (∀ (F L : Nat) (b : Bytes), 1 ≤ L →
      FileHasher.hash ⟨F, L⟩ b = specIdentity F L b) ∧
    (∀ b : Bytes, b.length < 512 →
      defaultHasher.hash b = sha256hex (b ++ b)) ∧
    defaultHasher.hash helloWorldBytes =
      "524857d0148721c24e3e7795e19ade0cdcf49f2a4dfbef2f1575d1208fa8c54f" ∧
    sha256hex (helloWorldBytes ++ helloWorldBytes) =
      "524857d0148721c24e3e7795e19ade0cdcf49f2a4dfbef2f1575d1208fa8c54f" := by
  refine ⟨?_, ?_, by decide, by decide⟩
  · intro F L b hL
    have hL0 : ¬ ((L == 0) = true) := by simp; omega
    unfold FileHasher.hash specIdentity pySliceLast
    by_cases hlen : b.length ≥ L
    · simp [hlen, hL0]
    · have hz : b.length - L = 0 :=
        Nat.sub_eq_zero_of_le (Nat.le_of_lt (Nat.lt_of_not_le hlen))
      simp [hlen, hz]
  · intro b hb
    have h1 : ¬ (b.length ≥ (512 : Nat)) := by omega
    have h2 : b.take 512 = b := List.take_of_length_le (by omega)
    show FileHasher.hash ⟨512, 512⟩ b = _
    unfold FileHasher.hash
    simp [h1, h2]

theorem C2_content_identity_witness :
    ((1 : Nat) ≤ 512 ∧ ([104] : Bytes).length < 512) ∧
    FileHasher.hash ⟨512, 512⟩ [104] = specIdentity 512 512 [104] ∧
    defaultHasher.hash [104] = sha256hex ([104] ++ [104]) :=
  ⟨by decide, C2_content_identity.1 512 512 [104] (by decide),
    C2_content_identity.2.1 [104] (by decide)⟩

/-- C6: when the record at `id` already holds an artefact at `kind`, a
`store_service_output` call with `overwrite_existing = false` leaves the
collection entirely unchanged (so the existing artefact is byte-for-byte
preserved) while still returning the id. -/
theorem C6_overwrite_false_skip (coll : Collection) (i k : String)
    (data : Artefact) (doc : Bytes) (r : StoredDoc) (a : Artefact)
    (h : find_one coll i = some r) (hk : assocLookup r.artefacts k = some a) :
    store_service_output coll i k data doc false = (coll, i) := by
  have hhas : recordHasKey r k = true := by
    simp [recordHasKey, hk]
  rw [store_service_output_found k data doc false h, hhas]
  simp

def docC6 : StoredDoc := ⟨"id-1", some (some [1, 2, 3]), [("summarization", artefactA)]⟩

def collC6 : Collection := [docC6]

theorem C6_overwrite_false_skip_witness :
    (find_one collC6 "id-1" = some docC6 ∧
      assocLookup docC6.artefacts "summarization" = some artefactA) ∧
    store_service_output collC6 "id-1" "summarization"
      { genId := some "gen-new" } [9, 9] false = (collC6, "id-1") :=
  ⟨by decide, C6_overwrite_false_skip collC6 "id-1" "summarization"
    { genId := some "gen-new" } [9, 9] docC6 artefactA (by decide) (by decide)⟩

/-- C9 (code bug): retrieval of a missing id with the default
`exclude_byte_fields=True` evaluates `'original_document_as_bytes' in None`
and raises `TypeError` instead of returning a clean not-found result. -/
theorem C9_missing_record_raises_type_error :
    get_document_by_id [] "deadbeef" true =
      .error "TypeError: argument of type NoneType is not iterable" := rfl

def loaderL : LoaderSpec := ⟨"doc.txt", ["hello world"]⟩

/-- C8 counterexample: constructing the `DocumentProcessor` directly with an
empty (or omitted) service list succeeds — `services or []` just normalises
it — so not every construction of the pipeline with an empty service list
fails. -/
theorem C8_constructor_accepts_empty_services :
    (DocumentProcessor.init loaderL (some [])).services = [] ∧
    (DocumentProcessor.init loaderL none).services = [] := ⟨rfl, rfl⟩

/-- C8 (amended): only the builder validates — `DocumentProcessorBuilder.build`
fails on a missing loader and then on an empty service list, before
constructing the processor; the `DocumentProcessor` constructor itself
accepts any (even empty) service list, normalising `None` to `[]`. -/
theorem C8_builder_rejects_empty_services :
    (∀ (b : DocumentProcessorBuilder) (l : LoaderSpec),
      b.loader = some l → b.services = [] →
      b.build = .error "Cannot instantiate DocumentProcessor object without services.") ∧
    (∀ b : DocumentProcessorBuilder, b.loader = none →
      b.build = .error "Cannot instantiate DocumentProcessor object without a Loader.") ∧
    ∀ (loader : LoaderSpec) (svcs : Option (List ServiceSpec)),
      (DocumentProcessor.init loader svcs).services = svcs.getD [] := by
  refine ⟨?_, ?_, fun loader svcs => rfl⟩
  · intro b l hl hs
    simp [DocumentProcessorBuilder.build, hl, hs]
  · intro b hl
    simp [DocumentProcessorBuilder.build, hl]

theorem C8_builder_rejects_empty_services_witness :
    ((⟨some loaderL, []⟩ : DocumentProcessorBuilder).loader = some loaderL ∧
      (⟨some loaderL, []⟩ : DocumentProcessorBuilder).services = []) ∧
    (⟨some loaderL, []⟩ : DocumentProcessorBuilder).build =
      .error "Cannot instantiate DocumentProcessor object without services." :=
  ⟨⟨rfl, rfl⟩, C8_builder_rejects_empty_services.1 ⟨some loaderL, []⟩ loaderL rfl rfl⟩

def artefactS : Artefact :=
  { genId := some "gen-S", metadata := some [], content := some "sum", feedback := [] }

def docC5 : StoredDoc := ⟨"doc-1", some none, [("summarization", artefactS)]⟩

def collC5 : Collection := [docC5]

def formWithDate : FeedbackForm :=
  { user := "alice", created_at := some "1999-01-01T00:00:00" }

/-- C5 counterexample: a caller-supplied `created_at` is NOT preserved —
`_set_creation_date` unconditionally overwrites it with the server-side
timestamp, so the stored entry carries the server time, not the one the
caller sent. -/
theorem C5_caller_created_at_overwritten :
    formWithDate.created_at = some "1999-01-01T00:00:00" ∧
    (find_one (store_service_output_feedback collC5 "doc-1" "summarization"
        formWithDate "2024-05-05T12:00:00").1 "doc-1").map
      (fun r => feedbackAt r "summarization") =
      some [{ user := "alice", created_at := some "2024-05-05T12:00:00" }] ∧
    ("2024-05-05T12:00:00" : String) ≠ "1999-01-01T00:00:00" := by decide

/-- C5 (amended): the stored feedback entry's `created_at` is always assigned
server-side at append time, replacing any caller-supplied value; an append
only adds one entry at the end of the targeted feedback list, so entries
already stored (and their `created_at`) are never modified afterward. -/
theorem C5_created_at_always_server_assigned :
    (∀ (now : String) (form : FeedbackForm),
      (set_creation_date now form).created_at = some now) ∧
    (∀ (coll : Collection) (i k : String) (form : FeedbackForm) (now : String)
      (r : StoredDoc), ¬ reservedKey k → find_one coll i = some r →
      ∃ r', find_one (store_service_output_feedback coll i k form now).1 i
          = some r' ∧
        feedbackAt r' k = feedbackAt r k ++ [set_creation_date now form]) := by
  refine ⟨fun now form => rfl, ?_⟩
  intro coll i k form now r _ h
  rw [store_service_output_feedback_found k form now h]
  exact ⟨r.push k (set_creation_date now form),
    find_one_update_one_self (fun x => rfl) h, feedbackAt_push_self r k _⟩

theorem C5_created_at_always_server_assigned_witness :
    (¬ reservedKey "summarization" ∧ find_one collC5 "doc-1" = some docC5) ∧
    (set_creation_date "2024-05-05T12:00:00" formWithDate).created_at
      = some "2024-05-05T12:00:00" ∧
    ∃ r', find_one (store_service_output_feedback collC5 "doc-1" "summarization"
        formWithDate "2024-05-05T12:00:00").1 "doc-1" = some r' ∧
      feedbackAt r' "summarization" = feedbackAt docC5 "summarization"
        ++ [set_creation_date "2024-05-05T12:00:00" formWithDate] :=
  ⟨by decide, C5_created_at_always_server_assigned.1 "2024-05-05T12:00:00" formWithDate,
    C5_created_at_always_server_assigned.2 collC5 "doc-1" "summarization"
      formWithDate "2024-05-05T12:00:00" docC5 (by decide) (by decide)⟩

/-- C10: appending feedback to an existing record at a kind its artefacts do
not include succeeds (returns the id, raises nothing) and silently creates at
that kind a mapping holding only the feedback list with the single appended
entry. -/
theorem C10_feedback_only_artefact_created (coll : Collection) (i k : String)
    (form : FeedbackForm) (now : String) (r : StoredDoc)
    (_hres : ¬ reservedKey k) (h : find_one coll i = some r)
    (hk : assocLookup r.artefacts k = none) :
    (store_service_output_feedback coll i k form now).2 = .ok i ∧
    artefactAt (store_service_output_feedback coll i k form now).1 i k =
      some { genId := none, metadata := none, content := none,
             feedback := [set_creation_date now form] } := by
  constructor
  · rw [store_service_output_feedback_found k form now h]
  · rw [store_service_output_feedback_found k form now h]
    unfold artefactAt
    show ((find_one (update_one coll i
        (fun x => x.push k (set_creation_date now form))).1 i).bind
      (fun x => assocLookup x.artefacts k)) = _
    rw [@find_one_update_one_self coll i
      (fun x => x.push k (set_creation_date now form)) r (fun x => rfl) h]
    show assocLookup (assocPush r.artefacts k (set_creation_date now form)) k = _
    rw [assocLookup_assocPush_self, hk]

def docC10 : StoredDoc := ⟨"doc-2", some (some [5]), [("summarization", artefactS)]⟩

def collC10 : Collection := [docC10]

theorem C10_feedback_only_artefact_created_witness :
    (¬ reservedKey "tagging" ∧ find_one collC10 "doc-2" = some docC10 ∧
      assocLookup docC10.artefacts "tagging" = none) ∧
    (store_service_output_feedback collC10 "doc-2" "tagging"
      { user := "bob" } "2024-06-06T00:00:00").2 = .ok "doc-2" ∧
    artefactAt (store_service_output_feedback collC10 "doc-2" "tagging"
        { user := "bob" } "2024-06-06T00:00:00").1 "doc-2" "tagging" =
      some { genId := none, metadata := none, content := none,
             feedback := [set_creation_date "2024-06-06T00:00:00" { user := "bob" }] } :=
  ⟨by decide, C10_feedback_only_artefact_created collC10 "doc-2" "tagging"
    { user := "bob" } "2024-06-06T00:00:00" docC10 (by decide) (by decide) (by decide)⟩

/-- C3 counterexample: an over-ceiling payload does NOT yield a record with
no raw-bytes field.  The first call stores
`{"_id": ..., "original_document_as_bytes": None}`, so the key is present
with a null value (`raw = some none`), not absent (`raw ≠ none`) — while the
artefact is still stored and the id returned without error. -/
theorem C3_over_ceiling_field_present_with_null :
    ∃ r, find_one (store_service_output [] "big-doc" "tagging" artefactA
        (List.replicate 16793599 0) false).1 "big-doc" = some r ∧
      r.raw = some none ∧ r.raw ≠ none ∧
      assocLookup r.artefacts "tagging" = some artefactA ∧
      (store_service_output [] "big-doc" "tagging" artefactA
        (List.replicate 16793599 0) false).2 = "big-doc" := by
  have hsz : document_can_be_stored (List.replicate 16793599 0) = false := by
    unfold document_can_be_stored
    rw [List.length_replicate]
    decide
  have h := @store_service_output_none [] "big-doc" "tagging"
    artefactA (List.replicate 16793599 0) false (by decide) rfl
  rw [h, hsz]
  exact ⟨⟨"big-doc", some none, [("tagging", artefactA)]⟩, rfl, rfl,
    by simp, rfl, rfl⟩

/-- C3 (amended): the raw-bytes field is written only at record creation: the
first `store_service_output` call for an id embeds the payload iff it is
within the size ceiling, and an over-ceiling payload yields a record whose
`original_document_as_bytes` key is present with a null value (no bytes
embedded) — not an error — with the artefact still stored; any later call for
the same id with an artefact kind other than the reserved field names leaves
the raw field unchanged, whatever bytes it passes. -/
theorem C3_raw_bytes_only_at_creation :
    (∀ (coll : Collection) (i k : String) (data : Artefact) (doc : Bytes)
      (ow : Bool), ¬ reservedKey k → find_one coll i = none →
      (store_service_output coll i k data doc ow).2 = i ∧
      find_one (store_service_output coll i k data doc ow).1 i =
        some ⟨i, some (if doc.length ≤ MAX_DOCUMENT_SIZE_IN_BYTES
          then some doc else none), [(k, data)]⟩) ∧
    (∀ (coll : Collection) (i k : String) (data : Artefact) (doc : Bytes)
      (ow : Bool) (r : StoredDoc), ¬ reservedKey k → find_one coll i = some r →
      ∃ r', find_one (store_service_output coll i k data doc ow).1 i = some r'
        ∧ r'.raw = r.raw) := by
  constructor
  · intro coll i k data doc ow hk h
    rw [store_service_output_none k data doc ow hk h]
    refine ⟨rfl, ?_⟩
    show find_one (coll ++ [⟨i, some (if document_can_be_stored doc
      then some doc else none), [(k, data)]⟩]) i = _
    rw [find_one_append_of_none h]
    by_cases hsz : doc.length ≤ MAX_DOCUMENT_SIZE_IN_BYTES
    · simp [document_can_be_stored, hsz]
    · simp [document_can_be_stored, hsz]
  · intro coll i k data doc ow r _ h
    rw [store_service_output_found k data doc ow h]
    cases hb : (! recordHasKey r k || ow) with
    | false =>
        simp only [hb]
        exact ⟨r, h, rfl⟩
    | true =>
        simp only [hb, if_true]
        refine ⟨r.set k data, ?_, rfl⟩
        show find_one (update_one coll i (fun x => x.set k data)).1 i = _
        exact @find_one_update_one_self coll i
          (fun x => x.set k data) r (fun x => rfl) h

theorem C3_raw_bytes_only_at_creation_witness :
    (¬ reservedKey "tagging" ∧ find_one ([] : Collection) "doc-3" = none ∧
      find_one collC6 "id-1" = some docC6) ∧
    ((store_service_output [] "doc-3" "tagging" artefactA [7, 8] false).2 = "doc-3" ∧
      find_one (store_service_output [] "doc-3" "tagging" artefactA [7, 8] false).1
        "doc-3" = some ⟨"doc-3",
          some (if ([7, 8] : Bytes).length ≤ MAX_DOCUMENT_SIZE_IN_BYTES
            then some [7, 8] else none), [("tagging", artefactA)]⟩) ∧
    ∃ r', find_one (store_service_output collC6 "id-1" "tagging" artefactA
        [7, 8] false).1 "id-1" = some r' ∧ r'.raw = docC6.raw :=
  ⟨by decide,
    C3_raw_bytes_only_at_creation.1 [] "doc-3" "tagging" artefactA [7, 8] false
      (by decide) (by decide),
    C3_raw_bytes_only_at_creation.2 collC6 "id-1" "tagging" artefactA [7, 8]
      false docC6 (by decide) (by decide)⟩

/-- Sequential feedback submissions, as the fold of the store's append
operation over a list of (form, server time) pairs. -/
def appendMany (coll : Collection) (i k : String)
    (entries : List (FeedbackForm × String)) : Collection :=
  entries.foldl (fun c e => (store_service_output_feedback c i k e.1 e.2).1) coll

theorem appendMany_spec (i k : String) (entries : List (FeedbackForm × String)) :
    ∀ (coll : Collection) (r : StoredDoc), find_one coll i = some r →
    ∃ r', find_one (appendMany coll i k entries) i = some r' ∧
      feedbackAt r' k = feedbackAt r k
        ++ entries.map (fun e => set_creation_date e.2 e.1) := by
  induction entries with
  | nil =>
      intro coll r h
      exact ⟨r, h, by simp [appendMany]⟩
  | cons e rest ih =>
      intro coll r h
      have hstep : appendMany coll i k (e :: rest)
          = appendMany (store_service_output_feedback coll i k e.1 e.2).1 i k rest := rfl
      have hc : (store_service_output_feedback coll i k e.1 e.2).1
          = (update_one coll i (fun x => x.push k (set_creation_date e.2 e.1))).1 := by
        rw [store_service_output_feedback_found k e.1 e.2 h]
      have h1 : find_one (store_service_output_feedback coll i k e.1 e.2).1 i
          = some (r.push k (set_creation_date e.2 e.1)) := by
        rw [hc]
        exact @find_one_update_one_self coll i
          (fun x => x.push k (set_creation_date e.2 e.1)) r (fun x => rfl) h
      obtain ⟨r', hfind, hfb⟩ := ih _ _ h1
      refine ⟨r', ?_, ?_⟩
      · rw [hstep]
        exact hfind
      · rw [hfb, feedbackAt_push_self]
        simp

/-- C4: `store_service_output_feedback` fails with the not-found error exactly
when no record matches the id (it checks the update's matched count), and on
that failure the collection is unchanged; against an existing record, N
sequential submissions to the same (id, kind) yield the previous feedback
list extended by the N entries in submission order. -/
theorem C4_feedback_not_found_and_ordering :
    (∀ (coll : Collection) (i k : String) (form : FeedbackForm) (now : String),
      find_one coll i = none →
        store_service_output_feedback coll i k form now =
          (coll, .error ("Failed to insert feedback with _id=" ++ i
            ++ " on service_type=" ++ k))) ∧
    (∀ (coll : Collection) (i k : String) (form : FeedbackForm) (now : String)
      (r : StoredDoc), find_one coll i = some r →
      (store_service_output_feedback coll i k form now).2 = .ok i) ∧
    (∀ (i k : String), ¬ reservedKey k →
      ∀ (entries : List (FeedbackForm × String)) (coll : Collection)
        (r : StoredDoc), find_one coll i = some r →
      ∃ r', find_one (appendMany coll i k entries) i = some r' ∧
        feedbackAt r' k = feedbackAt r k
          ++ entries.map (fun e => set_creation_date e.2 e.1)) := by
  refine ⟨?_, ?_, fun i k _ => appendMany_spec i k⟩
  · intro coll i k form now h
    exact store_service_output_feedback_none k form now h
  · intro coll i k form now r h
    rw [store_service_output_feedback_found k form now h]

def formU1 : FeedbackForm := { user := "u1", written_feedback := some "good" }

def formU2 : FeedbackForm := { user := "u2", feedback := some "5" }

theorem C4_feedback_not_found_and_ordering_witness :
    (find_one ([] : Collection) "ghost" = none ∧ ¬ reservedKey "summarization" ∧
      find_one collC5 "doc-1" = some docC5) ∧
    store_service_output_feedback [] "ghost" "summarization" formU1 "t0" =
      ([], .error ("Failed to insert feedback with _id=" ++ "ghost"
        ++ " on service_type=" ++ "summarization")) ∧
    (store_service_output_feedback collC5 "doc-1" "summarization" formU1 "t1").2
      = .ok "doc-1" ∧
    ∃ r', find_one (appendMany collC5 "doc-1" "summarization"
        [(formU1, "t1"), (formU2, "t2")]) "doc-1" = some r' ∧
      feedbackAt r' "summarization" = feedbackAt docC5 "summarization"
        ++ [(formU1, "t1"), (formU2, "t2")].map (fun e => set_creation_date e.2 e.1) :=
  ⟨by decide,
    C4_feedback_not_found_and_ordering.1 [] "ghost" "summarization" formU1 "t0"
      (by decide),
    C4_feedback_not_found_and_ordering.2.1 collC5 "doc-1" "summarization" formU1
      "t1" docC5 (by decide),
    C4_feedback_not_found_and_ordering.2.2 "doc-1" "summarization" (by decide)
      [(formU1, "t1"), (formU2, "t2")] collC5 docC5 (by decide)⟩

def svcTagging : ServiceSpec :=
  ⟨"tagging", fun _ => ⟨"gen-1", "tag: greeting"⟩, fun _ _ => []⟩

def procC7 : DocumentProcessor := ⟨⟨"doc.txt", ["hello world"]⟩, [svcTagging], {}⟩

def worldC7 : World := ⟨[], helloWorldBytes, 0, 0⟩

/-- C7 counterexample: with one configured service, a run invokes the Loader
once but reads the raw payload from disk three times (hash before storing,
payload for the store call, hash for the final retrieval) — not once. -/
theorem C7_raw_bytes_reread :
    (executeServices procC7 worldC7).1.loaderLoads = 1 ∧
    (executeServices procC7 worldC7).1.bytesReads = 3 ∧ (3 : Nat) ≠ 1 := by
  decide

/-- C7 (amended): the extracted text is loaded from the Loader exactly once
per `execute_services` run and shared across all services, but the raw bytes
are re-read from disk twice per configured service (`self.file_hash` and
`self.file_as_bytes` in `_execute_service_on_content`) plus once more for the
final retrieval's hash — `2·n + 1` reads for n services, not one. -/
theorem C7_text_once_bytes_per_service (p : DocumentProcessor) (w : World) :
    (executeServices p w).1.loaderLoads = w.loaderLoads + 1 ∧
    (executeServices p w).1.bytesReads = w.bytesReads + 2 * p.services.length + 1 := by
  have h := runServices_counters p p.loader.docs p.services
    { w with loaderLoads := w.loaderLoads + 1 }
  have e1 : (executeServices p w).1 =
      { runServices p p.loader.docs p.services
          { w with loaderLoads := w.loaderLoads + 1 } with
        bytesReads := (runServices p p.loader.docs p.services
          { w with loaderLoads := w.loaderLoads + 1 }).bytesReads + 1 } := rfl
  rw [e1]
  constructor
  · show (runServices p p.loader.docs p.services
      { w with loaderLoads := w.loaderLoads + 1 }).loaderLoads = w.loaderLoads + 1
    rw [h.2.2]
  · show (runServices p p.loader.docs p.services
        { w with loaderLoads := w.loaderLoads + 1 }).bytesReads + 1
      = w.bytesReads + 2 * p.services.length + 1
    rw [h.2.1]

/-- C1: a pipeline run against bytes whose content identity already has a
stored record extends that one record: afterwards there is still exactly one
record for the identity, every artefact kind not produced by the run's
services is unchanged, and every kind produced by the run is replaced by the
freshly built artefact with its feedback list reset to empty. -/
theorem C1_rerun_extends_same_record (p : DocumentProcessor) (w : World)
    (r : StoredDoc)
    (hfound : find_one w.coll (p.hasher.hash w.fileBytes) = some r)
    (hcount : countMatching w.coll (p.hasher.hash w.fileBytes) = 1)
    (hnodup : (p.services.map (fun s => s.service_type)).Nodup)
    (_hres : ∀ s ∈ p.services, ¬ reservedKey s.service_type) :
    countMatching (executeServices p w).1.coll (p.hasher.hash w.fileBytes) = 1 ∧
    ∃ r', find_one (executeServices p w).1.coll (p.hasher.hash w.fileBytes)
        = some r' ∧
      r'.raw = r.raw ∧
      (∀ k, k ∉ p.services.map (fun s => s.service_type) →
        assocLookup r'.artefacts k = assocLookup r.artefacts k) ∧
      ∀ s ∈ p.services,
        assocLookup r'.artefacts s.service_type = some (freshArtefact p s) ∧
        (freshArtefact p s).feedback = [] := by
  have e1 : (executeServices p w).1.coll =
      (runServices p p.loader.docs p.services
        { w with loaderLoads := w.loaderLoads + 1 }).coll := rfl
  have hf1 : find_one ({ w with loaderLoads := w.loaderLoads + 1 } : World).coll
      (p.hasher.hash ({ w with loaderLoads := w.loaderLoads + 1 } : World).fileBytes)
      = some r := hfound
  obtain ⟨hcnt, r', hfind, hraw, hother, hsvc⟩ :=
    runServices_upsert p p.loader.docs p.services
      { w with loaderLoads := w.loaderLoads + 1 } r hf1 hnodup
  refine ⟨?_, r', ?_, hraw, hother, ?_⟩
  · rw [e1, hcnt]
    exact hcount
  · rw [e1]
    exact hfind
  · intro s hs
    refine ⟨?_, rfl⟩
    rw [freshArtefact_eq_built]
    exact hsvc s hs

def docC1 : StoredDoc :=
  ⟨defaultHasher.hash helloWorldBytes, some (some helloWorldBytes),
    [("summarization", artefactA)]⟩

def worldC1 : World := ⟨[docC1], helloWorldBytes, 0, 0⟩

theorem C1_rerun_extends_same_record_witness :
    (find_one worldC1.coll (procC7.hasher.hash worldC1.fileBytes) = some docC1 ∧
      countMatching worldC1.coll (procC7.hasher.hash worldC1.fileBytes) = 1 ∧
      (procC7.services.map (fun s => s.service_type)).Nodup ∧
      ∀ s ∈ procC7.services, ¬ reservedKey s.service_type) ∧
    (countMatching (executeServices procC7 worldC1).1.coll
        (procC7.hasher.hash worldC1.fileBytes) = 1 ∧
      ∃ r', find_one (executeServices procC7 worldC1).1.coll
          (procC7.hasher.hash worldC1.fileBytes) = some r' ∧
        r'.raw = docC1.raw ∧
        (∀ k, k ∉ procC7.services.map (fun s => s.service_type) →
          assocLookup r'.artefacts k = assocLookup docC1.artefacts k) ∧
        ∀ s ∈ procC7.services,
          assocLookup r'.artefacts s.service_type = some (freshArtefact procC7 s) ∧
          (freshArtefact procC7 s).feedback = []) :=
  ⟨⟨by decide, by decide, by decide, by decide⟩,
    C1_rerun_extends_same_record procC7 worldC1 docC1
      (by decide) (by decide) (by decide) (by decide)⟩
